import Mathlib

/-!
# Shallow embedding of the `echo_limiter` middleware

Source: the single Go file of `github.com/shareed2k/echo_limiter`
(package `echo_limiter`).  The middleware wraps an HTTP handler chain:
per request it consults an external rate-limit engine
(`go_limiter.Limiter.Allow`) and either forwards the request, annotating
the response with quota headers, or short-circuits with a denial or
error response.

Modelling choices:
* `echo.Context` is reduced to the capabilities the middleware uses:
  reading the caller's real IP and carrying an identity for the request.
* Response-header mutation is made explicit: the run function returns the
  final values of the four rate-limit headers (the only headers the
  middleware touches) together with the outcome.
* The engine is a parameter `allow : String → Limit → Except GoError AllowResult`;
  the run function records every key it passes to the engine, so "the
  engine is called at most once" and "the key fn is never invoked on the
  skip path" are statable.
* Go `time.Duration` and timestamps are `Int` nanoseconds; `time.Time`
  stores `(sec, nsec)` with `0 ≤ nsec < 10^9`, so `Time.Unix` is floor
  division by `10^9` (`Int.fdiv`).
* `panic` in the constructor is modelled as `Option.none`.
* `ctx.Logger().Error(err)` is a pure logging side effect with no bearing
  on control flow or the response; it is not modelled.
-/

/-- Go `error` values: only their identity matters here. -/
abbrev GoError := String

/-- A non-nil `*redis.Client` handle; the middleware only threads it through
to the engine, so only its identity matters. -/
structure Rediser where
  id : Nat
deriving DecidableEq, Repr

/-- Nanoseconds per second, Go `time.Second`. -/
def nsPerSec : Int := 1000000000

/-- Go `time.Minute`. -/
def timeMinute : Int := 60 * nsPerSec

/-- Go `time.Time.Unix()` applied to an absolute timestamp in nanoseconds:
`time.Time` keeps `(sec, nsec)` with `0 ≤ nsec < 10^9`, so the seconds
component is the floor of `t / 10^9`. -/
def timeUnix (t : Int) : Int := Int.fdiv t nsPerSec

/-- The minimal request-context capabilities the middleware uses
(`echo.Context`): the caller's resolved IP and an opaque request identity
that custom configuration functions may inspect. -/
structure EchoCtx where
  realIP : String
  reqId : Nat
deriving DecidableEq, Repr

/-- The response value a per-request handler function produces.
`strResp` is `ctx.String(status, body)`; `httpError` is
`echo.NewHTTPError(status, err)`; `custom` stands for any other
behaviour a user-supplied handler might have. -/
inductive HandlerResult where
  | strResp (status : Int) (body : String)
  | httpError (status : Int) (msg : String)
  | custom (tag : Nat)
deriving DecidableEq, Repr

/-- Modelled from the spec: the algorithm identifiers re-exported from the
external `go_limiter` engine (out of scope of this repository).  The spec
treats them as opaque identifiers selecting the engine's counting
strategy; the constructor's `config.Algorithm == 0` test shows `0` is
reserved for "unset", so both exported identifiers are nonzero. -/
def SlidingWindowAlgorithm : Nat := 1

/-- Modelled from the spec: the GCRA algorithm identifier of the external
`go_limiter` engine; see `SlidingWindowAlgorithm`. -/
def GCRAAlgorithm : Nat := 2

/-- `DefaultKeyPrefix` constant of the source. -/
def DefaultKeyPrefix : String := "echo_limiter"

/-- `defaultMessage` constant of the source. -/
def defaultMessage : String := "Too many requests, please try again later."

/-- `defaultStatusCode` constant of the source (`http.StatusTooManyRequests`). -/
def defaultStatusCode : Int := 429

/-- `http.StatusInternalServerError`. -/
def statusInternalServerError : Int := 500

/-- The `Config` struct of the source.  Go function-typed fields may be
`nil` and the `Rediser` pointer may be `nil`, hence `Option`; scalar
fields keep their Go zero values as ordinary values. -/
structure Config where
  Skipper : Option (EchoCtx → Bool)
  Rediser : Option Rediser
  Max : Int
  Burst : Int
  StatusCode : Int
  Message : String
  Algorithm : Nat
  Prefix : String
  SkipOnError : Bool
  Period : Int
  Key : Option (EchoCtx → String)
  Handler : Option (EchoCtx → HandlerResult)
  ErrHandler : Option (GoError → EchoCtx → HandlerResult)

/-- `middleware.DefaultSkipper`: skips nothing. -/
def defaultSkipper : EchoCtx → Bool := fun _ => false

/-- The package-level `DefaultConfig` value of the source. -/
def DefaultConfig : Config where
  Skipper := some defaultSkipper
  Rediser := none
  Max := 10
  Burst := 10
  StatusCode := defaultStatusCode
  Message := defaultMessage
  Prefix := DefaultKeyPrefix
  Algorithm := SlidingWindowAlgorithm
  SkipOnError := false
  Period := timeMinute
  Key := some (fun ctx => ctx.realIP)
  Handler := none
  ErrHandler := none

/-- A configuration after `NewWithConfig` has substituted defaults: every
function field is populated and the engine handle is present.  In Go this
is the same `Config` value mutated in place; the separate type records
the non-nil guarantees the per-request closure relies on. -/
structure ResolvedConfig where
  Skipper : EchoCtx → Bool
  Rediser : Rediser
  Max : Int
  Burst : Int
  StatusCode : Int
  Message : String
  Algorithm : Nat
  Prefix : String
  SkipOnError : Bool
  Period : Int
  Key : EchoCtx → String
  Handler : EchoCtx → HandlerResult
  ErrHandler : GoError → EchoCtx → HandlerResult

/-- The default-substitution sequence of `NewWithConfig` (source lines
107–153), in source order.  Each `if` of the Go code resolves one field:
a nil function, `0` number, empty string or zero duration falls back to
`DefaultConfig`; anything else is kept.  The default `Handler` and
`ErrHandler` are built last, closing over the already-resolved
`StatusCode` and `Message` exactly as the Go closures capture the mutated
`config` variable. -/
def resolveConfig (config : Config) (r : Rediser) : ResolvedConfig :=
  let skipper := match config.Skipper with
    | none => defaultSkipper
    | some f => f
  let max := if config.Max = 0 then DefaultConfig.Max else config.Max
  let burst := if config.Burst = 0 then DefaultConfig.Burst else config.Burst
  let statusCode := if config.StatusCode = 0 then DefaultConfig.StatusCode else config.StatusCode
  let message := if config.Message = "" then DefaultConfig.Message else config.Message
  let algorithm := if config.Algorithm = 0 then DefaultConfig.Algorithm else config.Algorithm
  let pfx := if config.Prefix = "" then DefaultConfig.Prefix else config.Prefix
  let period := if config.Period = 0 then DefaultConfig.Period else config.Period
  let key := match config.Key with
    | none => fun ctx => ctx.realIP
    | some f => f
  let handler := match config.Handler with
    | none => fun _ => HandlerResult.strResp statusCode message
    | some f => f
  let errHandler := match config.ErrHandler with
    | none => fun err _ => HandlerResult.httpError statusInternalServerError err
    | some f => f
  { Skipper := skipper
    Rediser := r
    Max := max
    Burst := burst
    StatusCode := statusCode
    Message := message
    Algorithm := algorithm
    Prefix := pfx
    SkipOnError := config.SkipOnError
    Period := period
    Key := key
    Handler := handler
    ErrHandler := errHandler }

/-- The `go_limiter.Limit` value built by `NewWithConfig` (source lines
156–161) and passed unchanged to every engine call. -/
structure Limit where
  Period : Int
  Algorithm : Nat
  Rate : Int
  Burst : Int
deriving DecidableEq, Repr

/-- The state `NewWithConfig` bakes into the per-request closure: the
resolved configuration and the derived limit. -/
structure MiddlewareData where
  config : ResolvedConfig
  limit : Limit

/-- `NewWithConfig` (source lines 102–161): panics — modelled as `none` —
when the `Rediser` handle is missing, otherwise resolves the
configuration and derives the limit. -/
def NewWithConfig (config : Config) : Option MiddlewareData :=
  match config.Rediser with
  | none => none
  | some r =>
    let rc := resolveConfig config r
    some { config := rc
           limit := { Period := rc.Period, Algorithm := rc.Algorithm,
                      Rate := rc.Max, Burst := rc.Burst } }

/-- `New` (source lines 96–100): copy `DefaultConfig`, install the given
handle, delegate to `NewWithConfig`. -/
def New (rediser : Option Rediser) : Option MiddlewareData :=
  let config := { DefaultConfig with Rediser := rediser }
  NewWithConfig config

/-- The `Result` value returned by the engine's `Allow`
(`go_limiter.Result`), as the middleware reads it: `Allowed`,
`Remaining`, and the `RetryAfter` / `ResetAfter` durations
(nanoseconds). -/
structure AllowResult where
  Allowed : Bool
  Remaining : Int
  RetryAfter : Int
  ResetAfter : Int
deriving DecidableEq, Repr

/-- The four response headers the middleware ever writes.  `none` means
the header was not set on this request. -/
structure Headers where
  xRateLimitLimit : Option String
  xRateLimitRemaining : Option String
  xRateLimitReset : Option String
  retryAfter : Option String
deriving DecidableEq, Repr

/-- No header written yet. -/
def Headers.empty : Headers :=
  { xRateLimitLimit := none, xRateLimitRemaining := none,
    xRateLimitReset := none, retryAfter := none }

/-- How the per-request closure returns: `forwarded` means `next(ctx)`
was invoked (the request proceeds down the chain); `replied r` means the
closure returned the response `r` of a handler function without calling
`next`. -/
inductive Outcome where
  | forwarded
  | replied (r : HandlerResult)
deriving DecidableEq, Repr

/-- Everything observable about one execution of the per-request closure:
final header values, the outcome, the keys passed to the engine's `Allow`
(in call order), and how many times the key function was invoked. -/
structure RunOutput where
  headers : Headers
  outcome : Outcome
  engineKeys : List String
  keyCalls : Nat
deriving DecidableEq, Repr

/-- The per-request closure returned by `NewWithConfig` (source lines
163–198), over an abstract engine `allow` and the clock value `now`
(nanoseconds since epoch) at which `time.Now()` is read.

Path by path, as in the source:
* `Skipper` true → `next(ctx)`, nothing else touched;
* engine error → log, then `next(ctx)` if `SkipOnError`, else return
  `ErrHandler(err, ctx)`;
* `!result.Allowed` → set `Retry-After` to epoch seconds of
  `now + RetryAfter`, return `Handler(ctx)`;
* allowed → set the three `X-RateLimit-*` headers and `next(ctx)`. -/
def runMiddleware (m : MiddlewareData)
    (allow : String → Limit → Except GoError AllowResult)
    (now : Int) (ctx : EchoCtx) : RunOutput :=
  if m.config.Skipper ctx then
    { headers := Headers.empty, outcome := .forwarded, engineKeys := [], keyCalls := 0 }
  else
    let key := m.config.Key ctx
    match allow key m.limit with
    | .error err =>
      if m.config.SkipOnError then
        { headers := Headers.empty, outcome := .forwarded,
          engineKeys := [key], keyCalls := 1 }
      else
        { headers := Headers.empty, outcome := .replied (m.config.ErrHandler err ctx),
          engineKeys := [key], keyCalls := 1 }
    | .ok result =>
      if !result.Allowed then
        { headers := { Headers.empty with
            retryAfter := some (toString (timeUnix (now + result.RetryAfter))) }
          outcome := .replied (m.config.Handler ctx)
          engineKeys := [key], keyCalls := 1 }
      else
        { headers := { xRateLimitLimit := some (toString m.config.Max)
                       xRateLimitRemaining := some (toString result.Remaining)
                       xRateLimitReset := some (toString (timeUnix (now + result.ResetAfter)))
                       retryAfter := none }
          outcome := .forwarded
          engineKeys := [key], keyCalls := 1 }

/-- Status carried by a handler response, when it determines one:
`ctx.String` and `echo.NewHTTPError` fix the HTTP status; a fully custom
handler's status is unknowable here. -/
def HandlerResult.status : HandlerResult → Option Int
  | .strResp s _ => some s
  | .httpError s _ => some s
  | .custom _ => none

/-- Helper: unpacking a successful construction.  `NewWithConfig c = some m`
forces a present engine handle and determines `m` as the resolved
configuration plus the derived limit. -/
theorem newWithConfig_some (c : Config) (m : MiddlewareData)
    (hm : NewWithConfig c = some m) :
    ∃ r, c.Rediser = some r ∧
      m = { config := resolveConfig c r
            limit := { Period := (resolveConfig c r).Period
                       Algorithm := (resolveConfig c r).Algorithm
                       Rate := (resolveConfig c r).Max
                       Burst := (resolveConfig c r).Burst } } := by
  unfold NewWithConfig at hm
  cases hR : c.Rediser with
  | none => rw [hR] at hm; exact absurd hm (by simp)
  | some r =>
    rw [hR] at hm
    simp only [Option.some.injEq] at hm
    exact ⟨r, rfl, hm.symm⟩

/-- Claim C1: on a non-skipped request whose engine call succeeds with an
allowed decision, the middleware sets exactly the three quota headers —
`X-RateLimit-Limit` to the resolved max, `X-RateLimit-Remaining` to the
decision's remaining count, `X-RateLimit-Reset` to the epoch seconds of
`now + ResetAfter` — leaves `Retry-After` unset, and forwards the request;
conversely, any of the three quota headers is set only on that path. -/
theorem allowed_path_sets_quota_headers (m : MiddlewareData)
    (allow : String → Limit → Except GoError AllowResult)
    (now : Int) (ctx : EchoCtx) :
    (∀ result, m.config.Skipper ctx = false →
      allow (m.config.Key ctx) m.limit = .ok result →
      result.Allowed = true →
      runMiddleware m allow now ctx =
        { headers := { xRateLimitLimit := some (toString m.config.Max)
                       xRateLimitRemaining := some (toString result.Remaining)
                       xRateLimitReset := some (toString (timeUnix (now + result.ResetAfter)))
                       retryAfter := none }
          outcome := .forwarded
          engineKeys := [m.config.Key ctx]
          keyCalls := 1 }) ∧
    (((runMiddleware m allow now ctx).headers.xRateLimitLimit ≠ none ∨
      (runMiddleware m allow now ctx).headers.xRateLimitRemaining ≠ none ∨
      (runMiddleware m allow now ctx).headers.xRateLimitReset ≠ none) →
      m.config.Skipper ctx = false ∧
      ∃ result, allow (m.config.Key ctx) m.limit = .ok result ∧
        result.Allowed = true) := by
  constructor
  · intro result hskip hallow hres
    simp [runMiddleware, hskip, hallow, hres]
  · cases hs : m.config.Skipper ctx with
    | true =>
      intro h
      exfalso
      simp [runMiddleware, hs, Headers.empty] at h
    | false =>
      cases ha : allow (m.config.Key ctx) m.limit with
      | error e =>
        intro h
        exfalso
        cases hso : m.config.SkipOnError <;>
          simp [runMiddleware, hs, ha, hso, Headers.empty] at h
      | ok result =>
        cases hA : result.Allowed with
        | false =>
          intro h
          exfalso
          simp [runMiddleware, hs, ha, hA, Headers.empty] at h
        | true =>
          intro _
          exact ⟨rfl, result, rfl, hA⟩

/-- Concrete engine handle used in witnesses. -/
def r0 : Rediser := ⟨0⟩

/-- Concrete request context used in witnesses: caller IP `10.0.0.1`. -/
def ctx0 : EchoCtx := ⟨"10.0.0.1", 0⟩

/-- The middleware obtained from `New` with the handle `r0`: the fully
default configuration. -/
def mDefault : MiddlewareData := (New (some r0)).get rfl

/-- Engine decision of the spec's allowed example: allowed, 2 remaining,
reset 5 seconds away. -/
def res2 : AllowResult :=
  { Allowed := true, Remaining := 2, RetryAfter := 0, ResetAfter := 5 * nsPerSec }

/-- An engine answering `res2` on every key. -/
def allowRes2 : String → Limit → Except GoError AllowResult := fun _ _ => .ok res2

/-- Witness for C1 at the spec's example: at time T = 100 s an allowed
decision with remaining 2 and reset-after 5 s yields limit header "10",
remaining header "2", reset header "105" (epoch seconds), no
`Retry-After`, and a forwarded request. -/
theorem allowed_path_sets_quota_headers_witness :
    runMiddleware mDefault allowRes2 (100 * nsPerSec) ctx0 =
      { headers := { xRateLimitLimit := some "10"
                     xRateLimitRemaining := some "2"
                     xRateLimitReset := some "105"
                     retryAfter := none }
        outcome := .forwarded
        engineKeys := ["10.0.0.1"]
        keyCalls := 1 } := by
  have h := (allowed_path_sets_quota_headers mDefault allowRes2
      (100 * nsPerSec) ctx0).1 res2 rfl rfl rfl
  rw [h]
  decide

/-- Claim C2: on a non-skipped request whose engine call succeeds with a
denied decision, the middleware sets `Retry-After` to the epoch seconds
of `now + RetryAfter` (an absolute time, not the raw duration), returns
the `Handler` ("onLimitReached") response without forwarding, and sets no
quota header; `Retry-After` is set on no other path; and when the
configuration supplied no `Handler`, the resolved one replies with the
resolved status code (429 when unspecified) and the resolved message
(the default text when unspecified) as the body. -/
theorem denied_path_sets_retry_after (m : MiddlewareData)
    (allow : String → Limit → Except GoError AllowResult)
    (now : Int) (ctx : EchoCtx) :
    (∀ result, m.config.Skipper ctx = false →
      allow (m.config.Key ctx) m.limit = .ok result →
      result.Allowed = false →
      runMiddleware m allow now ctx =
        { headers := { xRateLimitLimit := none
                       xRateLimitRemaining := none
                       xRateLimitReset := none
                       retryAfter := some (toString (timeUnix (now + result.RetryAfter))) }
          outcome := .replied (m.config.Handler ctx)
          engineKeys := [m.config.Key ctx]
          keyCalls := 1 }) ∧
    ((runMiddleware m allow now ctx).headers.retryAfter ≠ none →
      m.config.Skipper ctx = false ∧
      ∃ result, allow (m.config.Key ctx) m.limit = .ok result ∧
        result.Allowed = false) ∧
    (∀ c, NewWithConfig c = some m → c.Handler = none →
      m.config.Handler ctx = .strResp m.config.StatusCode m.config.Message ∧
      (c.StatusCode = 0 → m.config.StatusCode = 429) ∧
      (c.Message = "" → m.config.Message = defaultMessage)) := by
  refine ⟨?_, ?_, ?_⟩
  · intro result hskip hallow hres
    simp [runMiddleware, hskip, hallow, hres, Headers.empty]
  · cases hs : m.config.Skipper ctx with
    | true =>
      intro h
      exfalso
      simp [runMiddleware, hs, Headers.empty] at h
    | false =>
      cases ha : allow (m.config.Key ctx) m.limit with
      | error e =>
        intro h
        exfalso
        cases hso : m.config.SkipOnError <;>
          simp [runMiddleware, hs, ha, hso, Headers.empty] at h
      | ok result =>
        cases hA : result.Allowed with
        | false =>
          intro _
          exact ⟨rfl, result, rfl, hA⟩
        | true =>
          intro h
          exfalso
          simp [runMiddleware, hs, ha, hA, Headers.empty] at h
  · intro c hc hH
    obtain ⟨r, hR, hmeq⟩ := newWithConfig_some c m hc
    subst hmeq
    refine ⟨?_, ?_, ?_⟩
    · simp [resolveConfig, hH]
    · intro h0
      simp [resolveConfig, h0, DefaultConfig, defaultStatusCode]
    · intro h0
      simp [resolveConfig, h0, DefaultConfig]

/-- Engine decision of the spec's denied example: denied, retry 30 seconds
away. -/
def resDenied : AllowResult :=
  { Allowed := false, Remaining := 0, RetryAfter := 30 * nsPerSec,
    ResetAfter := 60 * nsPerSec }

/-- An engine answering `resDenied` on every key. -/
def allowDenied : String → Limit → Except GoError AllowResult :=
  fun _ _ => .ok resDenied

/-- Witness for C2 at the spec's example: at time T = 100 s a denied
decision with retry-after 30 s yields `Retry-After` "130" (epoch
seconds), a 429 reply with the default message, and no forwarding, under
the default configuration. -/
theorem denied_path_sets_retry_after_witness :
    runMiddleware mDefault allowDenied (100 * nsPerSec) ctx0 =
      { headers := { xRateLimitLimit := none
                     xRateLimitRemaining := none
                     xRateLimitReset := none
                     retryAfter := some "130" }
        outcome := .replied (.strResp 429 "Too many requests, please try again later.")
        engineKeys := ["10.0.0.1"]
        keyCalls := 1 } := by
  have h := (denied_path_sets_retry_after mDefault allowDenied
      (100 * nsPerSec) ctx0).1 resDenied rfl rfl rfl
  have h2 := ((denied_path_sets_retry_after mDefault allowDenied
      (100 * nsPerSec) ctx0).2.2 { DefaultConfig with Rediser := some r0 }
      rfl rfl).1
  rw [h, h2]
  decide

/-- Configuration whose denial status is 500, the same status the default
error handler uses. -/
def cfg500 : Config :=
  { DefaultConfig with Rediser := some r0, StatusCode := 500 }

/-- Counterexample to C3 as stated: with `StatusCode` explicitly 500, the
default `ErrHandler` ("onEngineError") replies with status 500 — the
internal-server-error status — which does NOT differ from the resolved
rate-limit denial status code, contradicting the claim's final clause. -/
theorem engine_error_status_counterexample :
    ∃ m, NewWithConfig cfg500 = some m ∧
      cfg500.ErrHandler = none ∧
      (runMiddleware m (fun _ _ => .error "redis down") 0 ctx0).outcome =
        .replied (.httpError 500 "redis down") ∧
      (HandlerResult.httpError 500 "redis down").status = some m.config.StatusCode := by
  refine ⟨_, rfl, rfl, ?_, ?_⟩ <;> decide

/-- Claim C3 (amended): on a non-skipped request whose engine call fails,
the middleware forwards with no rate-limit header when `SkipOnError` is
true and otherwise returns the `ErrHandler` ("onEngineError") response
without forwarding; when the configuration supplied no `ErrHandler`, the
resolved one replies with status 500 (internal server error), which
differs from the rate-limit denial status code whenever the resolved
status code is not itself 500 — in particular for the default 429. -/
theorem engine_error_path (m : MiddlewareData)
    (allow : String → Limit → Except GoError AllowResult)
    (now : Int) (ctx : EchoCtx) :
    (∀ e, m.config.Skipper ctx = false →
      allow (m.config.Key ctx) m.limit = .error e →
      runMiddleware m allow now ctx =
        if m.config.SkipOnError then
          { headers := Headers.empty, outcome := .forwarded,
            engineKeys := [m.config.Key ctx], keyCalls := 1 }
        else
          { headers := Headers.empty,
            outcome := .replied (m.config.ErrHandler e ctx),
            engineKeys := [m.config.Key ctx], keyCalls := 1 }) ∧
    (∀ c, NewWithConfig c = some m → c.ErrHandler = none → ∀ e,
      (m.config.ErrHandler e ctx).status = some 500 ∧
      (m.config.StatusCode ≠ 500 →
        (m.config.ErrHandler e ctx).status ≠ some m.config.StatusCode)) := by
  constructor
  · intro e hskip herr
    cases hso : m.config.SkipOnError <;>
      simp [runMiddleware, hskip, herr, hso]
  · intro c hc hE e
    obtain ⟨r, hR, hmeq⟩ := newWithConfig_some c m hc
    subst hmeq
    have hst : ((resolveConfig c r).ErrHandler e ctx).status = some 500 := by
      simp [resolveConfig, hE, HandlerResult.status, statusInternalServerError]
    refine ⟨hst, ?_⟩
    intro hne
    rw [hst]
    intro h
    apply hne
    injection h with h2
    omega

/-- Configuration opting in to fail-open behaviour. -/
def cfgOpen : Config :=
  { DefaultConfig with Rediser := some r0, SkipOnError := true }

/-- The middleware constructed from `cfgOpen`. -/
def mOpen : MiddlewareData := (NewWithConfig cfgOpen).get rfl

/-- Witness for C3 (amended): on a failing engine call, the fail-open
middleware forwards with no header, while the default (fail-closed)
middleware replies with the 500 response of the default error handler,
whose status differs from the default denial status 429. -/
theorem engine_error_path_witness :
    runMiddleware mOpen (fun _ _ => .error "redis down") 0 ctx0 =
      { headers := Headers.empty, outcome := .forwarded,
        engineKeys := ["10.0.0.1"], keyCalls := 1 } ∧
    runMiddleware mDefault (fun _ _ => .error "redis down") 0 ctx0 =
      { headers := Headers.empty,
        outcome := .replied (.httpError 500 "redis down"),
        engineKeys := ["10.0.0.1"], keyCalls := 1 } ∧
    (mDefault.config.ErrHandler "redis down" ctx0).status ≠
      some mDefault.config.StatusCode := by
  have h1 := (engine_error_path mOpen (fun _ _ => .error "redis down")
      0 ctx0).1 "redis down" rfl rfl
  have h2 := (engine_error_path mDefault (fun _ _ => .error "redis down")
      0 ctx0).1 "redis down" rfl rfl
  have h3 := ((engine_error_path mDefault (fun _ _ => .error "redis down")
      0 ctx0).2 { DefaultConfig with Rediser := some r0 } rfl rfl
      "redis down").2 (by decide)
  refine ⟨?_, ?_, h3⟩
  · rw [h1]; decide
  · rw [h2]; decide

/-- Claim C4: when the resolved skip predicate holds, the middleware
forwards the request unchanged — no header is set, the engine is never
called, and the key function is never invoked. -/
theorem skip_path_forwards_untouched (m : MiddlewareData)
    (allow : String → Limit → Except GoError AllowResult)
    (now : Int) (ctx : EchoCtx)
    (h : m.config.Skipper ctx = true) :
    runMiddleware m allow now ctx =
      { headers := Headers.empty, outcome := .forwarded,
        engineKeys := [], keyCalls := 0 } := by
  simp [runMiddleware, h]

/-- Configuration skipping loopback callers. -/
def cfgSkip : Config :=
  { DefaultConfig with
    Rediser := some r0
    Skipper := some (fun ctx => ctx.realIP == "127.0.0.1") }

/-- The middleware constructed from `cfgSkip`. -/
def mSkip : MiddlewareData := (NewWithConfig cfgSkip).get rfl

/-- A loopback request context. -/
def ctxLocal : EchoCtx := ⟨"127.0.0.1", 1⟩

/-- Witness for C4: a loopback request under `cfgSkip` is forwarded with
no header and no engine or key-function call, even though the engine
would deny it. -/
theorem skip_path_forwards_untouched_witness :
    mSkip.config.Skipper ctxLocal = true ∧
    runMiddleware mSkip allowDenied 0 ctxLocal =
      { headers := Headers.empty, outcome := .forwarded,
        engineKeys := [], keyCalls := 0 } :=
  ⟨rfl, skip_path_forwards_untouched mSkip allowDenied 0 ctxLocal rfl⟩

/-- Claim C9: every request makes at most one engine call, and every
execution path is terminal, ending either in forwarding the request or
in a single handler reply. -/
theorem at_most_one_engine_call (m : MiddlewareData)
    (allow : String → Limit → Except GoError AllowResult)
    (now : Int) (ctx : EchoCtx) :
    (runMiddleware m allow now ctx).engineKeys.length ≤ 1 ∧
    (runMiddleware m allow now ctx).keyCalls ≤ 1 ∧
    ((runMiddleware m allow now ctx).outcome = .forwarded ∨
      ∃ hr, (runMiddleware m allow now ctx).outcome = .replied hr) := by
  cases hs : m.config.Skipper ctx with
  | true => simp [runMiddleware, hs]
  | false =>
    cases ha : allow (m.config.Key ctx) m.limit with
    | error e =>
      cases hso : m.config.SkipOnError <;>
        simp [runMiddleware, hs, ha, hso]
    | ok result =>
      cases hA : result.Allowed <;>
        simp [runMiddleware, hs, ha, hA]

/-- Claim C5: configuration resolution substitutes the documented default
for every zero-valued field — Max 10, Burst 10, StatusCode 429, the
default message, the sliding-window algorithm, prefix "echo_limiter",
period one minute, real-IP key, no-op skipper, and the default Handler
and ErrHandler (the default Handler replying with the resolved status
code and message) — preserves every non-zero field unchanged, field by
field, and is deterministic: any two middlewares constructed from the
same configuration are equal. -/
theorem config_resolution_fieldwise (c : Config) (m : MiddlewareData)
    (hm : NewWithConfig c = some m) :
    m.config.Max = (if c.Max = 0 then 10 else c.Max) ∧
    m.config.Burst = (if c.Burst = 0 then 10 else c.Burst) ∧
    m.config.StatusCode = (if c.StatusCode = 0 then 429 else c.StatusCode) ∧
    m.config.Message = (if c.Message = "" then defaultMessage else c.Message) ∧
    m.config.Algorithm =
      (if c.Algorithm = 0 then SlidingWindowAlgorithm else c.Algorithm) ∧
    m.config.Prefix = (if c.Prefix = "" then DefaultKeyPrefix else c.Prefix) ∧
    m.config.Period = (if c.Period = 0 then timeMinute else c.Period) ∧
    m.config.Skipper = c.Skipper.getD defaultSkipper ∧
    m.config.Key = c.Key.getD (fun ctx => ctx.realIP) ∧
    m.config.Handler =
      c.Handler.getD
        (fun _ => .strResp m.config.StatusCode m.config.Message) ∧
    m.config.ErrHandler =
      c.ErrHandler.getD (fun err _ => .httpError 500 err) ∧
    m.config.SkipOnError = c.SkipOnError ∧
    (∀ m2, NewWithConfig c = some m2 → m2 = m) := by
  obtain ⟨r, hR, hmeq⟩ := newWithConfig_some c m hm
  subst hmeq
  refine ⟨rfl, rfl, rfl, rfl, rfl, rfl, rfl, ?_, ?_, ?_, ?_, rfl, ?_⟩
  · cases hS : c.Skipper <;> simp [resolveConfig, hS]
  · cases hK : c.Key <;> simp [resolveConfig, hK]
  · cases hH : c.Handler <;> simp [resolveConfig, hH]
  · cases hE : c.ErrHandler <;>
      simp [resolveConfig, hE, statusInternalServerError]
  · intro m2 hm2
    obtain ⟨r2, hR2, hmeq2⟩ := newWithConfig_some c m2 hm2
    rw [hR] at hR2
    injection hR2 with h
    subst h
    exact hmeq2

/-- Configuration mixing explicit values (Max, Burst, Algorithm, Period,
as in the README example) with zero-valued fields left to default. -/
def cfgMixed : Config :=
  { Skipper := none, Rediser := some r0, Max := 3, Burst := 3,
    StatusCode := 0, Message := "", Algorithm := GCRAAlgorithm,
    Prefix := "", SkipOnError := false, Period := 10 * nsPerSec,
    Key := none, Handler := none, ErrHandler := none }

/-- The middleware constructed from `cfgMixed`. -/
def mMixed : MiddlewareData := (NewWithConfig cfgMixed).get rfl

/-- Witness for C5 at `cfgMixed`: explicit Max 3, Burst 3, GCRA and 10 s
period survive resolution, while status code, message and prefix fall to
their documented defaults. -/
theorem config_resolution_fieldwise_witness :
    mMixed.config.Max = 3 ∧ mMixed.config.Burst = 3 ∧
    mMixed.config.StatusCode = 429 ∧
    mMixed.config.Message = defaultMessage ∧
    mMixed.config.Algorithm = GCRAAlgorithm ∧
    mMixed.config.Prefix = "echo_limiter" ∧
    mMixed.config.Period = 10 * nsPerSec := by
  obtain ⟨h1, h2, h3, h4, h5, h6, h7, -, -, -, -, -, -⟩ :=
    config_resolution_fieldwise cfgMixed mMixed rfl
  rw [h1, h2, h3, h4, h5, h6, h7]
  decide

/-- Counterexample to C6 as stated: under the default configuration the
resolved prefix is "echo_limiter", yet the key passed to the engine for
caller 10.0.0.1 is "10.0.0.1", not "echo_limiter:10.0.0.1" — the
middleware passes `Key(ctx)` to `Allow` and never incorporates the
resolved `Prefix` into the key. -/
theorem engine_key_prefix_counterexample :
    mDefault.config.Prefix = "echo_limiter" ∧
    mDefault.config.Key ctx0 = "10.0.0.1" ∧
    (runMiddleware mDefault allowRes2 0 ctx0).engineKeys = ["10.0.0.1"] ∧
    (runMiddleware mDefault allowRes2 0 ctx0).engineKeys ≠
      [mDefault.config.Prefix ++ ":" ++ mDefault.config.Key ctx0] := by
  refine ⟨rfl, rfl, ?_, ?_⟩ <;> decide

/-- Claim C6 (amended): on every non-skipped request the key string passed
to the engine's `Allow` is exactly `Key(ctx)` — the resolved key prefix
is resolved but never prepended by the middleware. -/
theorem engine_key_eq_keyFn (m : MiddlewareData)
    (allow : String → Limit → Except GoError AllowResult)
    (now : Int) (ctx : EchoCtx)
    (h : m.config.Skipper ctx = false) :
    (runMiddleware m allow now ctx).engineKeys = [m.config.Key ctx] := by
  cases ha : allow (m.config.Key ctx) m.limit with
  | error e =>
    cases hso : m.config.SkipOnError <;>
      simp [runMiddleware, h, ha, hso]
  | ok result =>
    cases hA : result.Allowed <;>
      simp [runMiddleware, h, ha, hA]

/-- Witness for C6 (amended) at the default configuration and caller
10.0.0.1. -/
theorem engine_key_eq_keyFn_witness :
    mDefault.config.Skipper ctx0 = false ∧
    (runMiddleware mDefault allowRes2 0 ctx0).engineKeys = ["10.0.0.1"] := by
  refine ⟨rfl, ?_⟩
  rw [engine_key_eq_keyFn mDefault allowRes2 0 ctx0 rfl]
  decide

/-- Configuration with a negative explicit Max. -/
def cfgNeg : Config := { DefaultConfig with Rediser := some r0, Max := -1 }

/-- Counterexample to C7 as stated: the resolver accepts `Max = -1` (any
configuration with a handle is accepted; only a zero value triggers the
default), and the resolved Max is -1, which is not strictly positive. -/
theorem numeric_fields_positive_counterexample :
    ∃ m, NewWithConfig cfgNeg = some m ∧ m.config.Max = -1 ∧
      ¬ 0 < m.config.Max := by
  refine ⟨_, rfl, rfl, by decide⟩

/-- Claim C7 (amended): after a successful construction every numeric
field of the resolved configuration is nonzero — and strictly positive
whenever the corresponding supplied value was non-negative (the resolver
preserves explicitly supplied negative values, so only nonzero-ness holds
unconditionally; the algorithm id, an unsigned value, is always
positive). -/
theorem numeric_fields_nonzero (c : Config) (m : MiddlewareData)
    (hm : NewWithConfig c = some m) :
    (m.config.Max ≠ 0 ∧ m.config.Burst ≠ 0 ∧ m.config.StatusCode ≠ 0 ∧
      0 < m.config.Algorithm ∧ m.config.Period ≠ 0) ∧
    ((0 ≤ c.Max → 0 < m.config.Max) ∧
      (0 ≤ c.Burst → 0 < m.config.Burst) ∧
      (0 ≤ c.StatusCode → 0 < m.config.StatusCode) ∧
      (0 ≤ c.Period → 0 < m.config.Period)) := by
  obtain ⟨r, hR, hmeq⟩ := newWithConfig_some c m hm
  subst hmeq
  refine ⟨⟨?_, ?_, ?_, ?_, ?_⟩, ?_, ?_, ?_, ?_⟩
  · by_cases h : c.Max = 0 <;> simp [resolveConfig, h, DefaultConfig]
  · by_cases h : c.Burst = 0 <;> simp [resolveConfig, h, DefaultConfig]
  · by_cases h : c.StatusCode = 0 <;>
      simp [resolveConfig, h, DefaultConfig, defaultStatusCode]
  · by_cases h : c.Algorithm = 0 <;>
      simp [resolveConfig, h, DefaultConfig, SlidingWindowAlgorithm]
    all_goals omega
  · by_cases h : c.Period = 0 <;>
      simp [resolveConfig, h, DefaultConfig, timeMinute, nsPerSec]
  · intro h0
    by_cases h : c.Max = 0 <;> simp [resolveConfig, h, DefaultConfig]
    all_goals omega
  · intro h0
    by_cases h : c.Burst = 0 <;> simp [resolveConfig, h, DefaultConfig]
    all_goals omega
  · intro h0
    by_cases h : c.StatusCode = 0 <;>
      simp [resolveConfig, h, DefaultConfig, defaultStatusCode]
    all_goals omega
  · intro h0
    by_cases h : c.Period = 0 <;>
      simp [resolveConfig, h, DefaultConfig, timeMinute, nsPerSec]
    all_goals omega

/-- Witness for C7 (amended) at `cfgMixed`, whose supplied numeric fields
are non-negative. -/
theorem numeric_fields_nonzero_witness :
    mMixed.config.Max ≠ 0 ∧ 0 < mMixed.config.Max ∧
    0 < mMixed.config.Algorithm ∧ 0 < mMixed.config.Period := by
  obtain ⟨⟨ha, -, -, hd, -⟩, hp1, -, -, hp4⟩ :=
    numeric_fields_nonzero cfgMixed mMixed rfl
  exact ⟨ha, hp1 (by decide), hd, hp4 (by decide)⟩

/-- Claim C8: construction fails (the Go code panics) exactly when the
engine handle is missing; with a handle present it always succeeds —
before any per-request path is reachable, since no middleware value
exists on failure. -/
theorem construction_requires_engine_handle (c : Config) :
    (NewWithConfig c = none ↔ c.Rediser = none) ∧
    (∀ r, c.Rediser = some r → ∃ m, NewWithConfig c = some m) := by
  constructor
  · constructor
    · intro h
      cases hR : c.Rediser with
      | none => rfl
      | some r =>
        exfalso
        unfold NewWithConfig at h
        rw [hR] at h
        exact absurd h (by simp)
    · intro h
      unfold NewWithConfig
      rw [h]
  · intro r hR
    refine ⟨{ config := resolveConfig c r
              limit := { Period := (resolveConfig c r).Period
                         Algorithm := (resolveConfig c r).Algorithm
                         Rate := (resolveConfig c r).Max
                         Burst := (resolveConfig c r).Burst } }, ?_⟩
    unfold NewWithConfig
    rw [hR]

/-- Witness for C8: the default configuration (no handle) is rejected;
adding the handle `r0` makes construction succeed. -/
theorem construction_requires_engine_handle_witness :
    NewWithConfig DefaultConfig = none ∧
    ∃ m, NewWithConfig { DefaultConfig with Rediser := some r0 } = some m :=
  ⟨(construction_requires_engine_handle DefaultConfig).1.2 rfl,
   (construction_requires_engine_handle
      { DefaultConfig with Rediser := some r0 }).2 r0 rfl⟩

/-- Claim C10: `New r` is exactly `NewWithConfig` of `DefaultConfig` with
the handle installed — the constructions are equal, so the resolved
configurations, derived limits, and all per-request decisions agree. -/
theorem new_equals_newWithConfig_default (r : Rediser) :
    New (some r) = NewWithConfig { DefaultConfig with Rediser := some r } ∧
    ∀ m m2, New (some r) = some m →
      NewWithConfig { DefaultConfig with Rediser := some r } = some m2 →
      m.config = m2.config ∧ m.limit = m2.limit ∧
      ∀ allow now ctx,
        runMiddleware m allow now ctx = runMiddleware m2 allow now ctx := by
  refine ⟨rfl, ?_⟩
  intro m m2 h1 h2
  have he : New (some r) =
      NewWithConfig { DefaultConfig with Rediser := some r } := rfl
  rw [he] at h1
  rw [h1] at h2
  injection h2 with h
  subst h
  exact ⟨rfl, rfl, fun _ _ _ => rfl⟩

/-- Witness for C10 at the handle `r0`: the two constructions coincide and
run identically on a concrete request. -/
theorem new_equals_newWithConfig_default_witness :
    New (some r0) = NewWithConfig { DefaultConfig with Rediser := some r0 } ∧
    runMiddleware mDefault allowRes2 0 ctx0 =
      runMiddleware
        ((NewWithConfig { DefaultConfig with Rediser := some r0 }).get rfl)
        allowRes2 0 ctx0 :=
  ⟨(new_equals_newWithConfig_default r0).1,
   ((new_equals_newWithConfig_default r0).2 mDefault
      ((NewWithConfig { DefaultConfig with Rediser := some r0 }).get rfl)
      rfl rfl).2.2 allowRes2 0 ctx0⟩
